import Mathlib

/-!
Verification of the SlicerNetstim WarpDrive module against its specification.

The development shallowly embeds the Python sources
`src/WarpDrive/WarpDrive.py` and
`src/WarpDrive/WarpDriveLib/Helpers/LeadDBSCall.py`:
pure fragments become Lean functions, filesystem-touching fragments become
functions over an explicit `FileSystem` record, and widget event handlers
become state transformers over a `WidgetState` record.  Machine reals that
the code manipulates through numpy are modelled with `ℚ`; Python's `int()`
truncation toward zero is modelled by `truncQ`.
-/

namespace WarpDrive

/-! ## String and path helpers

Python-faithful helpers, written over `List Char` so that proofs can reduce
them with the kernel.  `osPathJoin` models `os.path.join` for the cases the
sources exercise (a possibly absolute second component), `baseName` models
`os.path.split(p)[-1]`, and `dirName` models `os.path.dirname`.
-/

/-- Python `str.endswith`. -/
def pyEndsWith (s suffix : String) : Bool :=
  suffix.data.isSuffixOf s.data

/-- `os.path.join a b`: if `b` is absolute it wins; otherwise the components
are joined with a single `/`. -/
def osPathJoin (a b : String) : String :=
  if b.data.head? = some '/' then b
  else if a = "" then b
  else if a.data.getLast? = some '/' then a ++ b
  else a ++ "/" ++ b

/-- `os.path.split(p)[-1]`: the part of `p` after the last `/`. -/
def baseName (s : String) : String :=
  ⟨(s.data.reverse.takeWhile (fun c => c ≠ '/')).reverse⟩

/-- `os.path.dirname p`: the part of `p` before the last `/`. -/
def dirName (s : String) : String :=
  ⟨((s.data.reverse.dropWhile (fun c => c ≠ '/')).drop 1).reverse⟩

/-- Python `str.replace` (replace every non-overlapping occurrence, left to
right).  The first argument is fuel, instantiated with the length of the
subject string; each step consumes at least one character, so the fuel is
never exhausted for the non-empty patterns the sources use. -/
def pyReplaceAux (pat rep : List Char) : Nat → List Char → List Char
  | _, [] => []
  | 0, s => s
  | fuel + 1, c :: cs =>
    if pat.isPrefixOf (c :: cs) then
      rep ++ pyReplaceAux pat rep fuel ((c :: cs).drop pat.length)
    else
      c :: pyReplaceAux pat rep fuel cs

/-- Python `s.replace(pat, rep)`. -/
def pyReplace (s pat rep : String) : String :=
  ⟨pyReplaceAux pat.data rep.data s.data.length s.data⟩

/-- Python `sep.join xs`. -/
def pyJoin (sep : String) : List String → String
  | [] => ""
  | [a] => a
  | a :: rest => a ++ sep ++ pyJoin sep rest

/-- Fuel-driven core of `globMatch`; every step shortens the pattern or the
target, so `|pattern| + |target| + 1` units of fuel always suffice. -/
def globMatchAux : Nat → List Char → List Char → Bool
  | 0, _, _ => false
  | _ + 1, [], [] => true
  | _ + 1, [], _ :: _ => false
  | fuel + 1, '*' :: ps, [] => globMatchAux fuel ps []
  | fuel + 1, '*' :: ps, c :: cs =>
    globMatchAux fuel ps (c :: cs) || (decide (c ≠ '/') && globMatchAux fuel ('*' :: ps) cs)
  | fuel + 1, p :: ps, c :: cs => decide (p = c) && globMatchAux fuel ps cs
  | _ + 1, _ :: _, [] => false

/-- `glob` pattern match: `*` matches any run of characters other than the
path separator `/`; every other character matches itself. -/
def globMatch (pattern target : List Char) : Bool :=
  globMatchAux (pattern.length + target.length + 1) pattern target

instance {ε α : Type} [DecidableEq ε] [DecidableEq α] : DecidableEq (Except ε α)
  | .error e, .error f =>
    if h : e = f then .isTrue (by rw [h]) else .isFalse (fun hc => h (Except.error.inj hc))
  | .error _, .ok _ => .isFalse (fun hc => Except.noConfusion hc)
  | .ok _, .error _ => .isFalse (fun hc => Except.noConfusion hc)
  | .ok a, .ok b =>
    if h : a = b then .isTrue (by rw [h]) else .isFalse (fun hc => h (Except.ok.inj hc))

/-! ## Grid Geometry Resolver

`WarpDriveWidget.onCalculateButton` (WarpDrive.py lines 361-364) resolves
the reference grid: it reads the input grid definition, builds the isotropic
user spacing `[override] * 3`, computes `size * (spacing / userSpacing)`
elementwise with numpy and truncates each component with Python `int()`.
-/

/-- A discrete volume grid: per-axis size, origin and spacing. -/
structure GridDef where
  size : List Int
  origin : List ℚ
  spacing : List ℚ
deriving DecidableEq, Repr

/-- Python `int()` on a rational: truncation toward zero. -/
def truncQ (q : ℚ) : Int :=
  if 0 ≤ q then ⌊q⌋ else ⌈q⌉

/-- The grid resolution performed by `onCalculateButton` (lines 361-364):
`size = np.array(size) * (np.array(spacing) / np.array(userSpacing))` with
`userSpacing = [override] * 3`, then `[int(s) for s in size]`; the origin is
passed through unchanged and the spacing becomes the override on all axes. -/
def resolveGrid (size : List Int) (origin spacing : List ℚ) (override : ℚ) : GridDef :=
  { size := (size.zip spacing).map (fun p => truncQ ((p.1 : ℚ) * (p.2 / override)))
    origin := origin
    spacing := [override, override, override] }

/-- Grid-resolution errors named by the specification (§7). -/
inductive GridError where
  | invalidParameter
deriving DecidableEq, Repr

/-- Follows the spec's words (§4.1, §7), for comparison with the code's
`resolveGrid`: zero or negative overrides are rejected with
`InvalidParameter` before any computation, and otherwise
`size' = round(size * spacing / override)`, origin unchanged, spacing equal
to the override on all three axes. -/
def resolveGridSpec (size : List Int) (origin spacing : List ℚ) (override : ℚ) :
    Except GridError GridDef :=
  if override ≤ 0 then .error .invalidParameter
  else .ok
    { size := (size.zip spacing).map (fun p => round ((p.1 : ℚ) * p.2 / override))
      origin := origin
      spacing := [override, override, override] }

/-! ## Correction Warp Engine

`WarpDriveLogic.run` / `WarpDriveLogic.computeWarp` (WarpDrive.py lines
477-501) and the radius-string construction of
`WarpDriveWidget.onCalculateButton` (lines 367-372).
-/

/-- One markups control point: world position, the `selected` flag, and the
free-text description that WarpDrive uses as the per-point RBF radius. -/
structure ControlPoint where
  position : ℚ × ℚ × ℚ
  selected : Bool
  description : String
deriving DecidableEq, Repr

/-- A markups fiducial node: an ordered list of control points. -/
structure Fiducial where
  points : List ControlPoint
deriving DecidableEq, Repr

/-- A dense deformation field over a grid. -/
structure DeformationField where
  size : List Int
  origin : List ℚ
  spacing : List ℚ
  displacement : Int × Int × Int → ℚ × ℚ × ℚ

/-- Modelled from the spec: `GridNodeHelper.emptyGridTransform` lives in
`WarpDriveLib/Helpers/GridNodeHelper.py`, which is not under `src/`; the
spec (§4.4, §8) states that the empty-correspondence commit "synchronously
produce[s] an identity deformation field over the resolved grid" — zero
displacement at every voxel. -/
def emptyGridTransform (size : List Int) (origin spacing : List ℚ) : DeformationField :=
  { size := size, origin := origin, spacing := spacing
    displacement := fun _ => (0, 0, 0) }

/-- The parameters handed to the external `fiducialRegistrationVariableRBF`
solver by `WarpDriveLogic.computeWarp` (lines 490-497). -/
structure CliParams where
  referenceVolume : GridDef
  fixedFiducials : Fiducial
  movingFiducials : Fiducial
  RBFRadius : String
  stiffness : ℚ
deriving Repr

/-- `WarpDriveLogic.computeWarp` (lines 487-501): builds the solver
parameters (reference grid, target as fixed, source as moving, radius
string, stiffness) and launches one CLI node asynchronously. -/
def computeWarp (referenceVolume : GridDef) (sourceFiducial targetFiducial : Fiducial)
    (RBFRadius : String) (stiffness : ℚ) : CliParams :=
  { referenceVolume := referenceVolume
    fixedFiducials := targetFiducial
    movingFiducials := sourceFiducial
    RBFRadius := RBFRadius
    stiffness := stiffness }

/-- Result of `WarpDriveLogic.run`: the CLI node returned (if any), and the
deformation field written onto the output node by the synchronous branch
(if taken). -/
structure RunOutcome where
  cliNode : Option CliParams
  outputField : Option DeformationField

/-- `WarpDriveLogic.run` (lines 477-485): if the source fiducial has any
control points, launch `computeWarp` and return its CLI node; otherwise
write an identity grid transform over the reference volume's grid onto the
output node and return `None`. -/
def run (referenceVolume : GridDef) (sourceFiducial targetFiducial : Fiducial)
    (RBFRadius : String) (stiffness : ℚ) : RunOutcome :=
  if sourceFiducial.points.length ≠ 0 then
    { cliNode := some (computeWarp referenceVolume sourceFiducial targetFiducial RBFRadius stiffness)
      outputField := none }
  else
    { cliNode := none
      outputField := some (emptyGridTransform referenceVolume.size referenceVolume.origin
        referenceVolume.spacing) }

/-- The radius-string construction of `onCalculateButton` (lines 367-372):
collect the description of every *selected* control point of the target
fiducial, in order, and join them with commas. -/
def rbfRadiusString (targetFiducial : Fiducial) : String :=
  pyJoin "," ((targetFiducial.points.filter (fun p => p.selected)).map (fun p => p.description))

/-! ## Widget state machine

The state effects of `WarpDriveWidget.onCalculateButton` (lines 376-397)
and `WarpDriveWidget.onStatusModifiedEvent` (lines 403-422): the transform
attached to the input node, the set of scene nodes, and the `Running`
parameter.
-/

/-- The slice of widget/scene state that the commit cycle mutates. -/
structure WidgetState where
  inputTransformNodeID : Option String
  sceneNodes : List String
  running : String
deriving DecidableEq, Repr

/-- `slicer.mrmlScene.RemoveNode`. -/
def removeSceneNode (st : WidgetState) (nodeID : String) : WidgetState :=
  { st with sceneNodes := st.sceneNodes.filter (fun n => n ≠ nodeID) }

/-- The state effects of `onCalculateButton` once the grid and parameters
are built (lines 376-387): the input node's transform is detached
(`SetAndObserveTransformNodeID(None)`, line 380), the auxiliary reference
volume (line 364) and the preview visualization nodes (line 383) are added
to the scene, and `Running` is set to `"true"` (line 387). -/
def onCalculateButtonCommit (st : WidgetState) (visualizationNodes : List String)
    (auxVolumeNode : String) : WidgetState :=
  { st with
    inputTransformNodeID := none
    sceneNodes := st.sceneNodes ++ [auxVolumeNode] ++ visualizationNodes
    running := "true" }

/-- The cleanup path of `onStatusModifiedEvent` (lines 412-422): attach the
output node to the input node, remove the visualization nodes and the
auxiliary volume, and reset `Running`. -/
def applyCompleted (st : WidgetState) (outputNodeID : String)
    (visualizationNodes : List String) (auxVolumeNode : String) : WidgetState :=
  let st := { st with inputTransformNodeID := some outputNodeID }
  let st := visualizationNodes.foldl removeSceneNode st
  let st := removeSceneNode st auxVolumeNode
  { st with running := "false" }

/-- `onStatusModifiedEvent` (lines 403-422).  When called with a CLI node
(`callerStatus = some status`), only the `'Completed'` status reaches the
cleanup path; every other status returns immediately (line 410).  When
called directly with no CLI node (the synchronous empty-set branch, line
397), the cleanup path runs unconditionally.  The deferred
`RemoveNode(caller)` of the CLI node itself (line 408) is a `QTimer`
side effect on the CLI node only and is not part of this state. -/
def onStatusModifiedEvent (st : WidgetState) (callerStatus : Option String)
    (outputNodeID : String) (visualizationNodes : List String) (auxVolumeNode : String) :
    WidgetState :=
  match callerStatus with
  | some status =>
    if status = "Completed" then applyCompleted st outputNodeID visualizationNodes auxVolumeNode
    else st
  | none => applyCompleted st outputNodeID visualizationNodes auxVolumeNode

/-! ## Parameter node defaults

`WarpDriveLogic.setDefaultParameters` (WarpDrive.py lines 460-475).  A vtk
parameter node returns the empty string for a parameter that was never set,
and Python's `if not parameterNode.GetParameter(...)` is exactly an
emptiness test on that string.
-/

/-- The six parameters touched by `setDefaultParameters`; the empty string
models an unset parameter. -/
structure ParameterNode where
  Radius : String
  Spacing : String
  RBFRadius : String
  Stiffness : String
  DrawMode : String
  Running : String
deriving DecidableEq, Repr

/-- Line 464-465. -/
def setDefaultRadius (p : ParameterNode) : ParameterNode :=
  if p.Radius = "" then { p with Radius := "15.0" } else p

/-- Line 466-467. -/
def setDefaultSpacing (p : ParameterNode) : ParameterNode :=
  if p.Spacing = "" then { p with Spacing := "2.0" } else p

/-- Line 468-469. -/
def setDefaultRBFRadius (p : ParameterNode) : ParameterNode :=
  if p.RBFRadius = "" then { p with RBFRadius := "30" } else p

/-- Line 470-471. -/
def setDefaultStiffness (p : ParameterNode) : ParameterNode :=
  if p.Stiffness = "" then { p with Stiffness := "0.1" } else p

/-- Line 472-473. -/
def setDefaultDrawMode (p : ParameterNode) : ParameterNode :=
  if p.DrawMode = "" then { p with DrawMode := "To Nearest Model" } else p

/-- Line 474-475. -/
def setDefaultRunning (p : ParameterNode) : ParameterNode :=
  if p.Running = "" then { p with Running := "false" } else p

/-- `WarpDriveLogic.setDefaultParameters` (lines 460-475): each of the six
parameters is given its default value only when currently empty, in source
order. -/
def setDefaultParameters (p : ParameterNode) : ParameterNode :=
  setDefaultRunning (setDefaultDrawMode (setDefaultStiffness (setDefaultRBFRadius
    (setDefaultSpacing (setDefaultRadius p)))))

/-! ## Subject Layout Resolver and persistence (LeadDBSCall.py)

The filesystem is modelled explicitly: a list of directory paths, a list of
file paths, and content maps for the two metadata formats the module reads
and writes.
-/

/-- Python exceptions and error outcomes reachable in the embedded code. -/
inductive PyError where
  /-- `glob.glon` does not exist (`LeadFileManager.getCoregImages`, legacy
  branch, line 74 — a typo in the source). -/
  | attributeError
  /-- Indexing `[0]` into an empty glob result. -/
  | indexError
  /-- `json.load` on text that is not valid JSON. -/
  | jsonDecodeError
deriving DecidableEq, Repr

/-- A value stored under a key of a MATLAB `.mat` container. -/
inductive MatValue where
  /-- An integer vector, as written by the `h5py`/`hdf5storage` path
  (`np.array([2])`). -/
  | intArr (xs : List Int)
  /-- A 2-d `uint8` matrix, as written by the `scipy.io` fallback path
  (`np.array([[2]], dtype='uint8')`). -/
  | uint8Mat (xs : List (List Int))
deriving DecidableEq, Repr

/-- Association-list lookup by string key (first match). -/
def lookupStr {α : Type} : List (String × α) → String → Option α
  | [], _ => none
  | (k, v) :: rest, key => if k = key then some v else lookupStr rest key

/-- Association-list update: replace the first binding of `key`, or append a
new one (Python `d[key] = v`, file overwrite). -/
def setStr {α : Type} : List (String × α) → String → α → List (String × α)
  | [], key, v => [(key, v)]
  | (k, w) :: rest, key, v =>
    if k = key then (k, v) :: rest else (k, w) :: setStr rest key v

/-- An explicit filesystem: directories, files, and per-format contents. -/
structure FileSystem where
  dirs : List String
  files : List String
  textContents : List (String × String) := []
  matContents : List (String × List (String × MatValue)) := []
deriving DecidableEq, Repr

/-- `LeadFileManager` (LeadDBSCall.py lines 58-62): stores the subject path,
derives the subject ID from the root directory's base name, and resolves the
layout kind once, at construction, by checking for a `preprocessing`
subdirectory. -/
structure LeadFileManager where
  subjectPath : String
  subjectID : String
  useBIDS : Bool
deriving DecidableEq, Repr

/-- `LeadFileManager.__init__` (lines 59-62). -/
def leadFileManagerInit (fs : FileSystem) (subjectPath : String) : LeadFileManager :=
  { subjectPath := subjectPath
    subjectID := baseName subjectPath
    useBIDS := fs.dirs.contains (osPathJoin subjectPath "preprocessing") }

/-- The spec's layout-kind vocabulary (§3): the code's `useBIDS` flag read
as `\x7bLegacy, BIDS\x7d`. -/
inductive LayoutKind where
  | Legacy
  | BIDS
deriving DecidableEq, Repr

/-- The layout kind derived from the `useBIDS` flag. -/
def layoutKind (m : LeadFileManager) : LayoutKind :=
  if m.useBIDS then .BIDS else .Legacy

/-- `LeadFileManager.getNormalizationPath` (lines 94-95). -/
def getNormalizationPath (m : LeadFileManager) : String :=
  osPathJoin m.subjectPath "normalization"

/-- `LeadFileManager.getNormalizationMethod` (lines 64-68). -/
def getNormalizationMethod (m : LeadFileManager) : String :=
  if m.useBIDS then
    osPathJoin (osPathJoin (getNormalizationPath m) "log") (m.subjectID ++ "_desc-normmethod.json")
  else
    osPathJoin m.subjectPath "ea_coreg_approved.mat"

/-- `LeadFileManager.getANTSForwardWarp` (lines 82-86). -/
def getANTSForwardWarp (m : LeadFileManager) : String :=
  if m.useBIDS then
    osPathJoin (osPathJoin (getNormalizationPath m) "transformations")
      (m.subjectID ++ "_from-anchorNative_to-MNI152NLin2009bAsym_desc-ants.nii.gz")
  else
    osPathJoin m.subjectPath "glanatComposite.nii.gz"

/-- `LeadFileManager.getANTSInverseWarp` (lines 88-92). -/
def getANTSInverseWarp (m : LeadFileManager) : String :=
  if m.useBIDS then
    osPathJoin (osPathJoin (getNormalizationPath m) "transformations")
      (m.subjectID ++ "_from-MNI152NLin2009bAsym_to-anchorNative_desc-ants.nii.gz")
  else
    osPathJoin m.subjectPath "glanatInverseComposite.nii.gz"

/-- `glob.glob pattern` over the modelled filesystem: the files matching the
pattern, in filesystem order. -/
def globFiles (fs : FileSystem) (pattern : String) : List String :=
  fs.files.filter (fun f => globMatch pattern.data f.data)

/-- `LeadFileManager.getNormalizedImages` (lines 76-80). -/
def getNormalizedImages (m : LeadFileManager) (fs : FileSystem) : List String :=
  if m.useBIDS then
    globFiles fs (osPathJoin (osPathJoin (osPathJoin m.subjectPath "normalization") "anat")
      (m.subjectID ++ "*ses-preop*.nii"))
  else
    globFiles fs (osPathJoin m.subjectPath "glanat*.nii")

/-- `LeadFileManager.getCoregImages` (lines 70-74).  The legacy branch calls
`glob.glon`, which does not exist, so it raises `AttributeError`. -/
def getCoregImages (m : LeadFileManager) (fs : FileSystem) (modality : String) :
    Except PyError (List String) :=
  if m.useBIDS then
    .ok (globFiles fs (osPathJoin (osPathJoin (osPathJoin m.subjectPath "coregistration") "anat")
      (m.subjectID ++ "*ses-preop_" ++ modality ++ ".nii")))
  else
    .error .attributeError

/-- Lift `Option` to `Except`, raising the given Python error on `none`. -/
def ofOption {α : Type} : Option α → PyError → Except PyError α
  | some a, _ => .ok a
  | none, e => .error e

/-- Remove a file (`os.remove`). -/
def removeFile (fs : FileSystem) (p : String) : FileSystem :=
  { fs with files := fs.files.filter (fun f => f ≠ p) }

/-- Create a file if absent (the output written by the external tool). -/
def addFile (fs : FileSystem) (p : String) : FileSystem :=
  if fs.files.contains p then fs else { fs with files := fs.files ++ [p] }

/-- The exact command line built by `updateTranform` (line 183):
`<tool> -r <reference> -t <transform.h5> -o [<outputField>,1] -v 1`. -/
def antsApplyCmd (antsApplyTransformsPath reference h5transform transform : String) : String :=
  antsApplyTransformsPath ++ " -r " ++ reference ++ " -t " ++ h5transform ++
    " -o [" ++ transform ++ ",1] -v 1"

/-- Filesystem state plus the external-tool invocations made so far. -/
structure MigrationResult where
  fs : FileSystem
  calls : List String
deriving DecidableEq, Repr

/-- One iteration of the `updateTranform` loop (lines 179-185): the guard
checks `os.path.join(directory, transform + '.h5')` — note `transform` is
already an absolute path ending in `.nii.gz`, so this tests
`<transform>.nii.gz.h5` — and when it holds, runs the external tool with
`h5transform = transform.replace('.nii.gz', '.h5')` and removes
`h5transform`. -/
def updateTranformStep (antsApplyTransformsPath directory : String) (acc : MigrationResult)
    (tr : String × String) : MigrationResult :=
  let transformFullPath := osPathJoin directory (tr.1 ++ ".h5")
  if acc.fs.files.contains transformFullPath then
    let h5transform := pyReplace tr.1 ".nii.gz" ".h5"
    { fs := removeFile (addFile acc.fs tr.1) h5transform
      calls := acc.calls ++ [antsApplyCmd antsApplyTransformsPath tr.2 h5transform tr.1] }
  else acc

/-- `updateTranform` (lines 175-186): pair the forward and inverse warp
paths with the first normalized and first coregistered image, then run the
per-direction step.  (The name's typo is the source's.) -/
def updateTranform (fs : FileSystem) (directory antsApplyTransformsPath : String) :
    Except PyError MigrationResult := do
  let bidsSubject := leadFileManagerInit fs directory
  let transforms := [getANTSForwardWarp bidsSubject, getANTSInverseWarp bidsSubject]
  let r0 ← ofOption (getNormalizedImages bidsSubject fs).head? .indexError
  let coregs ← getCoregImages bidsSubject fs "*"
  let r1 ← ofOption coregs.head? .indexError
  pure ((transforms.zip [r0, r1]).foldl (updateTranformStep antsApplyTransformsPath directory)
    { fs := fs, calls := [] })

/-- Result of `loadSubjectTransform`: the filesystem and invocations after
any migration, the path handed to `slicer.util.loadTransform`, and whether
that path exists at load time. -/
structure LoadResult where
  fs : FileSystem
  calls : List String
  loadedPath : String
  loadedFileExists : Bool
deriving DecidableEq, Repr

/-- `loadSubjectTransform` (lines 162-173): when the sibling `.h5` of the
forward warp (`transformPath.replace('.nii.gz', '.h5')`) exists, run the
migration, then load the forward warp path. -/
def loadSubjectTransform (fs : FileSystem) (subjectPath antsApplyTransformsPath : String) :
    Except PyError LoadResult := do
  let transformPath := getANTSForwardWarp (leadFileManagerInit fs subjectPath)
  let r ←
    if fs.files.contains (pyReplace transformPath ".nii.gz" ".h5") then
      updateTranform fs subjectPath antsApplyTransformsPath
    else
      pure { fs := fs, calls := [] }
  pure { fs := r.fs, calls := r.calls, loadedPath := transformPath
         loadedFileExists := r.fs.files.contains transformPath }

/-! ## Approval metadata: JSON layout

`saveApprovedDataJSON` (LeadDBSCall.py lines 101-107) opens the
normalization-metadata file with mode `'a+'` and calls `json.load` on the
handle.  CPython positions an append-mode stream at the end of the file on
open, so the `f.read()` inside `json.load` returns the empty string.

Python's `json` module is standard-library code, modelled here just far
enough to be faithful on the flat objects the metadata file holds: objects
with string keys and integer or string values, no nesting, no escape
sequences.  Like every JSON parser, it rejects the empty string.
-/

/-- A JSON scalar as found in the metadata file. -/
inductive JVal where
  | int (n : Int)
  | str (s : String)
deriving DecidableEq, Repr

/-- A flat JSON object, keys in document order. -/
abbrev JObj := List (String × JVal)

/-- `Char.ofNat 123`, an opening curly bracket. -/
def braceOpen : Char := Char.ofNat 123

/-- `Char.ofNat 125`, a closing curly bracket. -/
def braceClose : Char := Char.ofNat 125

/-- Skip JSON whitespace. -/
def skipWs : List Char → List Char
  | [] => []
  | c :: cs => if c = ' ' ∨ c = '\n' ∨ c = '\t' ∨ c = '\r' then skipWs cs else c :: cs

/-- Read a string literal body up to the closing quote (no escapes). -/
def parseStringBody : List Char → Option (List Char × List Char)
  | [] => none
  | c :: cs =>
    if c = '"' then some ([], cs)
    else match parseStringBody cs with
      | some (s, rest) => some (c :: s, rest)
      | none => none

/-- Read a run of leading decimal digits. -/
def parseDigits : List Char → List Char × List Char
  | [] => ([], [])
  | c :: cs =>
    if c.isDigit then
      let (d, r) := parseDigits cs
      (c :: d, r)
    else ([], c :: cs)

/-- Digits to a natural number. -/
def digitsToNat (ds : List Char) : Nat :=
  ds.foldl (fun n c => 10 * n + (c.toNat - '0'.toNat)) 0

/-- Parse one JSON scalar value. -/
def parseJVal (l : List Char) : Option (JVal × List Char) :=
  match skipWs l with
  | [] => none
  | c :: cs =>
    if c = '"' then
      match parseStringBody cs with
      | some (s, rest) => some (.str ⟨s⟩, rest)
      | none => none
    else if c = '-' then
      match parseDigits cs with
      | ([], _) => none
      | (ds, r) => some (.int (-(digitsToNat ds : Int)), r)
    else if c.isDigit then
      match parseDigits (c :: cs) with
      | ([], _) => none
      | (ds, r) => some (.int (digitsToNat ds : Int), r)
    else none

/-- Parse the `"key": value` fields of an object, after the opening brace.
The fuel is instantiated with the remaining length. -/
def parseFields : Nat → List Char → Option (JObj × List Char)
  | 0, _ => none
  | fuel + 1, l =>
    match skipWs l with
    | c :: cs =>
      if c = '"' then
        match parseStringBody cs with
        | some (k, r1) =>
          match skipWs r1 with
          | ':' :: r2 =>
            match parseJVal r2 with
            | some (v, r3) =>
              (match skipWs r3 with
               | ',' :: r4 =>
                 match parseFields fuel r4 with
                 | some (rest, r5) => some ((⟨k⟩, v) :: rest, r5)
                 | none => none
               | cb :: r4 =>
                 if cb = braceClose then some ([(⟨k⟩, v)], r4) else none
               | [] => none)
            | none => none
          | _ => none
        | none => none
      else none
    | [] => none

/-- `json.loads`: accepts a single flat object, rejects anything else —
in particular the empty string. -/
def jsonParse (s : String) : Option JObj :=
  match skipWs s.data with
  | [] => none
  | c :: cs =>
    if c = braceOpen then
      match skipWs cs with
      | c2 :: cs2 =>
        if c2 = braceClose then (if skipWs cs2 = [] then some [] else none)
        else
          match parseFields (cs.length + 1) cs with
          | some (o, rest) => if skipWs rest = [] then some o else none
          | none => none
      | [] => none
    else none

/-- Serialize one JSON scalar. -/
def jvalDump : JVal → String
  | .int n => toString n
  | .str s => "\"" ++ s ++ "\""

/-- `json.dump` of a flat object. -/
def jsonDump (o : JObj) : String :=
  String.mk [braceOpen] ++
    pyJoin ", " (o.map (fun kv => "\"" ++ kv.1 ++ "\": " ++ jvalDump kv.2)) ++
    String.mk [braceClose]

/-- `saveApprovedDataJSON` (lines 101-107): open the file with `'a+'`
(stream positioned at end of file), `json.load` the handle (which therefore
reads the empty string), set `approval` to 1, seek to 0, dump, truncate.
The result is the new file content, or the propagated exception. -/
def saveApprovedDataJSON (content : String) : Except PyError String := do
  let readText : String := ⟨content.data.drop content.data.length⟩
  let normalizationMethod ← ofOption (jsonParse readText) .jsonDecodeError
  let normalizationMethod := setStr normalizationMethod "approval" (.int 1)
  pure (jsonDump normalizationMethod)

/-! ## Approval metadata: legacy layout

`saveApprovedDataLegacy` (lines 109-151) and the `saveApprovedData`
dispatcher (lines 154-159).
-/

/-- A write performed by `saveApprovedDataLegacy`: destination path and the
full key/value content of the written `.mat` file. -/
structure LegacyWrite where
  path : String
  contents : List (String × MatValue)
deriving DecidableEq, Repr

/-- `saveApprovedDataLegacy` (lines 109-151).  If the file exists, copy
every key except `glanat` and set `glanat` to the approved sentinel; the
`h5ReadOk` flag selects between the `h5py` reader (writing
`np.array([2])` through `hdf5storage` into `ea_coreg_approved.mat` in the
file's directory) and the `scipy.io` fallback (writing
`np.array([[2]], dtype='uint8')` back to the original path).  If the file
does not exist, the written structure holds only the sentinel. -/
def saveApprovedDataLegacy (fs : FileSystem) (normalizationMethodFile : String)
    (h5ReadOk : Bool) : LegacyWrite :=
  if fs.files.contains normalizationMethodFile then
    match lookupStr fs.matContents normalizationMethodFile, h5ReadOk with
    | some kvs, true =>
      { path := osPathJoin (dirName normalizationMethodFile) "ea_coreg_approved.mat"
        contents := (kvs.filter (fun kv => kv.1 ≠ "glanat")) ++ [("glanat", .intArr [2])] }
    | some kvs, false =>
      { path := normalizationMethodFile
        contents := (kvs.filter (fun kv => kv.1 ≠ "glanat")) ++ [("glanat", .uint8Mat [[2]])] }
    | none, _ =>
      { path := osPathJoin (dirName normalizationMethodFile) "ea_coreg_approved.mat"
        contents := [("glanat", .intArr [2])] }
  else
    { path := osPathJoin (dirName normalizationMethodFile) "ea_coreg_approved.mat"
      contents := [("glanat", .intArr [2])] }

/-- The outcome of `saveApprovedData`: either the JSON file rewritten in
place, or a legacy `.mat` write. -/
inductive SaveOutcome where
  | jsonWrite (path : String) (content : String)
  | legacyWrite (w : LegacyWrite)
deriving DecidableEq, Repr

/-- `saveApprovedData` (lines 154-159): resolve the normalization-method
file for the subject and dispatch on whether its name ends in `json`. -/
def saveApprovedData (fs : FileSystem) (subjectPath : String) (h5ReadOk : Bool) :
    Except PyError SaveOutcome :=
  let normalizationMethodFile := getNormalizationMethod (leadFileManagerInit fs subjectPath)
  if pyEndsWith normalizationMethodFile "json" then
    match saveApprovedDataJSON ((lookupStr fs.textContents normalizationMethodFile).getD "") with
    | .ok newContent => .ok (.jsonWrite normalizationMethodFile newContent)
    | .error e => .error e
  else
    .ok (.legacyWrite (saveApprovedDataLegacy fs normalizationMethodFile h5ReadOk))

/-! ## Concrete subject for the migration claim (C4)

A BIDS subject whose forward warp is stored in the legacy composite format:
the sibling `.h5` of the forward warp exists, the resampled
`.nii.gz` displacement field does not, and one normalized and one
coregistered image are present.
-/

/-- Subject root used by the migration scenario. -/
def c4SubjectPath : String := "/s/sub-01"

/-- The forward warp path the BIDS layout resolves. -/
def c4FwdWarp : String :=
  "/s/sub-01/normalization/transformations/sub-01_from-anchorNative_to-MNI152NLin2009bAsym_desc-ants.nii.gz"

/-- The sibling `.h5` composite that triggers the migration. -/
def c4FwdH5 : String :=
  "/s/sub-01/normalization/transformations/sub-01_from-anchorNative_to-MNI152NLin2009bAsym_desc-ants.h5"

/-- The subject's filesystem: BIDS layout (a `preprocessing` directory), the
`.h5` composite, a normalized image and a coregistered image. -/
def c4Fs : FileSystem :=
  { dirs := ["/s/sub-01/preprocessing"]
    files := [c4FwdH5,
              "/s/sub-01/normalization/anat/sub-01_ses-preop_T1w.nii",
              "/s/sub-01/coregistration/anat/sub-01_ses-preop_T1w.nii"] }

/-- Source fiducial for the three-point commit scenario. -/
def c8Source : Fiducial :=
  ⟨[⟨(0, 0, 0), true, "10"⟩]⟩

/-- Target fiducial for the three-point commit scenario: three selected
points with radius annotations `"10"`, `"20"`, `"30"` and one unselected
point whose annotation `"99"` must not contribute. -/
def c8Target : Fiducial :=
  ⟨[⟨(1, 0, 0), true, "10"⟩, ⟨(2, 0, 0), false, "99"⟩,
    ⟨(3, 0, 0), true, "20"⟩, ⟨(4, 0, 0), true, "30"⟩]⟩

/-! # Theorems -/

/-! ## C1 — grid resolution and field of view -/

/-- C1: the claim states the resolved size is `round(size * spacing /
override)` per axis.  At size 5, spacing 1, override 3 the code's `int()`
truncation yields 1 while rounding yields 2, so the claim is false as
stated. -/
theorem C1_counterexample :
    (resolveGrid [5, 5, 5] [0, 0, 0] [1, 1, 1] 3).size = [1, 1, 1]
    ∧ round ((5 : ℚ) * 1 / 3) = 2
    ∧ (resolveGrid [5, 5, 5] [0, 0, 0] [1, 1, 1] 3).size
        ≠ [round ((5 : ℚ) * 1 / 3), round ((5 : ℚ) * 1 / 3), round ((5 : ℚ) * 1 / 3)] := by
  have h1 : (resolveGrid [5, 5, 5] [0, 0, 0] [1, 1, 1] 3).size = [1, 1, 1] := by
    norm_num [resolveGrid, truncQ, List.zip_cons_cons]
  have h2 : round ((5 : ℚ) * 1 / 3) = 2 := by norm_num [round_eq]
  exact ⟨h1, h2, by rw [h1, h2]; decide⟩

/-- C1 (amended): for every positive spacing override the resolved grid
keeps the origin, uses the override as the spacing of all three axes, and
sets each size component to the *truncation* (equivalently, for nonnegative
size and spacing, the floor) of `size * spacing / override`; hence the
field of view is preserved within one voxel:
`size' * s ≤ size * spacing < (size' + 1) * s`. -/
theorem C1_resolveGrid_fov (size : List Int) (origin spacing : List ℚ) (s : ℚ)
    (hs : 0 < s) :
    (resolveGrid size origin spacing s).origin = origin
    ∧ (resolveGrid size origin spacing s).spacing = [s, s, s]
    ∧ (resolveGrid size origin spacing s).size
        = (size.zip spacing).map (fun p => truncQ ((p.1 : ℚ) * (p.2 / s)))
    ∧ ∀ p ∈ size.zip spacing, 0 ≤ p.1 → 0 ≤ p.2 →
        truncQ ((p.1 : ℚ) * (p.2 / s)) = ⌊(p.1 : ℚ) * p.2 / s⌋
        ∧ (truncQ ((p.1 : ℚ) * (p.2 / s)) : ℚ) * s ≤ (p.1 : ℚ) * p.2
        ∧ ((p.1 : ℚ) * p.2 : ℚ) < (truncQ ((p.1 : ℚ) * (p.2 / s)) + 1) * s := by
  refine ⟨rfl, rfl, rfl, fun p _ h1 h2 => ?_⟩
  have h1q : (0 : ℚ) ≤ (p.1 : ℚ) := by exact_mod_cast h1
  have hx0 : 0 ≤ (p.1 : ℚ) * (p.2 / s) := mul_nonneg h1q (div_nonneg h2 hs.le)
  have hassoc : (p.1 : ℚ) * (p.2 / s) = (p.1 : ℚ) * p.2 / s := (mul_div_assoc _ _ _).symm
  have htr : truncQ ((p.1 : ℚ) * (p.2 / s)) = ⌊(p.1 : ℚ) * p.2 / s⌋ := by
    rw [truncQ, if_pos hx0, hassoc]
  set x : ℚ := (p.1 : ℚ) * p.2 / s with hxdef
  have hfl : (⌊x⌋ : ℚ) ≤ x := Int.floor_le x
  have hfu : x < ⌊x⌋ + 1 := Int.lt_floor_add_one x
  have hxs : x * s = (p.1 : ℚ) * p.2 := div_mul_cancel₀ _ (ne_of_gt hs)
  refine ⟨htr, ?_, ?_⟩
  · rw [htr, ← hxs]
    exact mul_le_mul_of_nonneg_right hfl hs.le
  · rw [htr, ← hxs]
    have := mul_lt_mul_of_pos_right hfu hs
    push_cast at this ⊢
    linarith
/-- Witness for C1: the amended theorem instantiated at size `[5,5,5]`,
spacing `[1,1,1]`, override `3`. -/
theorem C1_resolveGrid_fov_witness :
    (resolveGrid [5, 5, 5] [0, 0, 0] [1, 1, 1] 3).spacing = [3, 3, 3]
    ∧ (truncQ ((5 : ℚ) * ((1 : ℚ) / 3)) : ℚ) * 3 ≤ (5 : ℚ) * 1 := by
  have h := C1_resolveGrid_fov [5, 5, 5] [0, 0, 0] [1, 1, 1] 3 (by norm_num)
  exact ⟨h.2.1, (h.2.2.2 (5, 1) (by simp [List.zip_cons_cons]) (by norm_num) (by norm_num)).2.1⟩

/-! ## C9 — no validation of the spacing override -/

/-- C9: the claim states that zero/negative overrides are rejected with an
`InvalidParameter` error before any grid computation.  At override `-2` the
code performs no rejection: it computes and returns a (negative-size) grid,
while the spec-modelled resolver errors. -/
theorem C9_counterexample :
    resolveGridSpec [10, 10, 10] [0, 0, 0] [1, 1, 1] (-2) = .error .invalidParameter
    ∧ resolveGrid [10, 10, 10] [0, 0, 0] [1, 1, 1] (-2)
        = { size := [-5, -5, -5], origin := [0, 0, 0], spacing := [-2, -2, -2] } := by
  constructor
  · rw [resolveGridSpec, if_pos (by norm_num : (-2 : ℚ) ≤ 0)]
  · norm_num [resolveGrid, truncQ, List.zip_cons_cons, Int.ceil_neg, GridDef.mk.injEq]

/-- C9 (amended): for every negative spacing override the code performs no
validation and reaches no error branch: `resolveGrid` still returns a grid
whose origin is unchanged and whose spacing is the override on all axes,
and (for nonnegative reference size and spacing) every computed size
component is `≤ 0` — a nonsensical grid rather than an `InvalidParameter`
rejection. -/
theorem C9_no_rejection (size : List Int) (origin spacing : List ℚ) (s : ℚ)
    (hs : s < 0) :
    (resolveGrid size origin spacing s).origin = origin
    ∧ (resolveGrid size origin spacing s).spacing = [s, s, s]
    ∧ ∀ p ∈ size.zip spacing, 0 ≤ p.1 → 0 ≤ p.2 →
        truncQ ((p.1 : ℚ) * (p.2 / s)) ≤ 0 := by
  refine ⟨rfl, rfl, fun p _ h1 h2 => ?_⟩
  have h1q : (0 : ℚ) ≤ (p.1 : ℚ) := by exact_mod_cast h1
  have hdiv : p.2 / s ≤ 0 := div_nonpos_iff.mpr (Or.inl ⟨h2, hs.le⟩)
  have hx : (p.1 : ℚ) * (p.2 / s) ≤ 0 := mul_nonpos_iff.mpr (Or.inl ⟨h1q, hdiv⟩)
  rw [truncQ]
  split
  · next h0 =>
    have hx0 : (p.1 : ℚ) * (p.2 / s) = 0 := le_antisymm hx h0
    simp [hx0]
  · exact Int.ceil_le.mpr (by exact_mod_cast hx)

/-- Witness for C9: the amended theorem instantiated at size `[10,10,10]`,
spacing `[1,1,1]`, override `-2`. -/
theorem C9_no_rejection_witness :
    (resolveGrid [10, 10, 10] [0, 0, 0] [1, 1, 1] (-2)).spacing = [-2, -2, -2]
    ∧ truncQ ((10 : ℚ) * ((1 : ℚ) / (-2))) ≤ 0 := by
  have h := C9_no_rejection [10, 10, 10] [0, 0, 0] [1, 1, 1] (-2) (by norm_num)
  exact ⟨h.2.1, h.2.2 (10, 1) (by simp [List.zip_cons_cons]) (by norm_num) (by norm_num)⟩

/-! ## C2 — empty correspondence set: synchronous identity field -/

/-- C2: when the source fiducial has no control points, `run` on the
resolved grid returns no CLI node (no external solver process) and writes
the identity deformation field — zero displacement everywhere — over the
resolved grid onto the output node. -/
theorem C2_run_empty_identity (size : List Int) (origin spacing : List ℚ) (s : ℚ)
    (source target : Fiducial) (RBFRadius : String) (stiffness : ℚ)
    (h : source.points = []) :
    (run (resolveGrid size origin spacing s) source target RBFRadius stiffness).cliNode = none
    ∧ (run (resolveGrid size origin spacing s) source target RBFRadius stiffness).outputField
        = some (emptyGridTransform (resolveGrid size origin spacing s).size
            (resolveGrid size origin spacing s).origin (resolveGrid size origin spacing s).spacing)
    ∧ ∀ v, (emptyGridTransform (resolveGrid size origin spacing s).size
            (resolveGrid size origin spacing s).origin
            (resolveGrid size origin spacing s).spacing).displacement v = (0, 0, 0) := by
  have hlen : source.points.length = 0 := by rw [h]; rfl
  refine ⟨?_, ?_, fun v => rfl⟩ <;> simp [run, hlen]

/-- Witness for C2 at a concrete resolved grid and empty fiducials. -/
theorem C2_run_empty_identity_witness :
    (run (resolveGrid [2, 2, 2] [0, 0, 0] [1, 1, 1] 1) ⟨[]⟩ ⟨[]⟩ "" 0).cliNode = none
    ∧ (run (resolveGrid [2, 2, 2] [0, 0, 0] [1, 1, 1] 1) ⟨[]⟩ ⟨[]⟩ "" 0).outputField
        = some (emptyGridTransform (resolveGrid [2, 2, 2] [0, 0, 0] [1, 1, 1] 1).size
            (resolveGrid [2, 2, 2] [0, 0, 0] [1, 1, 1] 1).origin
            (resolveGrid [2, 2, 2] [0, 0, 0] [1, 1, 1] 1).spacing) := by
  have h := C2_run_empty_identity [2, 2, 2] [0, 0, 0] [1, 1, 1] 1 ⟨[]⟩ ⟨[]⟩ "" 0 rfl
  exact ⟨h.1, h.2.1⟩

/-! ## C8 — non-empty commit: one solver invocation, radius string -/

/-- C8: a commit with a non-empty source fiducial launches exactly one
solver invocation — `run` returns one CLI node carrying the resolved
reference grid, the target as the fixed point set, the source as the moving
point set and the given stiffness — and its radius parameter is the
comma-joined list of exactly the selected target points' description
annotations (unselected points contribute nothing); with three selected
points annotated `r1`, `r2`, `r3` the radius string is
`r1 ++ "," ++ r2 ++ "," ++ r3`. -/
theorem C8_commit_launches_solver (size : List Int) (origin spacing : List ℚ)
    (s stiffness : ℚ) (source target : Fiducial)
    (h : source.points ≠ []) :
    (run (resolveGrid size origin spacing s) source target (rbfRadiusString target)
        stiffness).cliNode
      = some { referenceVolume := resolveGrid size origin spacing s
               fixedFiducials := target
               movingFiducials := source
               RBFRadius := rbfRadiusString target
               stiffness := stiffness }
    ∧ (run (resolveGrid size origin spacing s) source target (rbfRadiusString target)
        stiffness).outputField = none
    ∧ rbfRadiusString target
        = pyJoin "," ((target.points.filter (fun p => p.selected)).map (fun p => p.description))
    ∧ ∀ r1 r2 r3 : String,
        (target.points.filter (fun p => p.selected)).map (fun p => p.description) = [r1, r2, r3] →
        rbfRadiusString target = r1 ++ "," ++ (r2 ++ "," ++ r3) := by
  have hlen : source.points.length ≠ 0 := fun hc => h (List.length_eq_zero.mp hc)
  refine ⟨?_, ?_, rfl, fun r1 r2 r3 hsel => ?_⟩
  · simp [run, computeWarp, hlen]
  · simp [run, hlen]
  · rw [rbfRadiusString, hsel]
    rfl

/-- Witness for C8: three selected points annotated `"10"`, `"20"`, `"30"`
plus one unselected point annotated `"99"`. -/
theorem C8_commit_launches_solver_witness :
    (run (resolveGrid [2, 2, 2] [0, 0, 0] [1, 1, 1] 1) c8Source c8Target
        (rbfRadiusString c8Target) 1).outputField = none
    ∧ rbfRadiusString c8Target = "10" ++ "," ++ ("20" ++ "," ++ "30") := by
  have h := C8_commit_launches_solver [2, 2, 2] [0, 0, 0] [1, 1, 1] 1 1 c8Source c8Target
    (by simp [c8Source])
  exact ⟨h.2.1, h.2.2.2 "10" "20" "30" rfl⟩

/-! ## C3 — solver failure handling -/

/-- C3: the claim states that on a terminal status other than `Completed`
the widget discards the auxiliary artifacts and leaves the previously
active output transform attached to the input node.  Starting from a state
whose input observes the output transform `out`, a commit detaches it and
adds the artifacts; delivering status `CompletedWithErrors` then changes
nothing: the artifacts are still in the scene and the input node observes
no transform — so the claimed outcome is false. -/
theorem C3_counterexample :
    ¬ (let st1 := onCalculateButtonCommit
         { inputTransformNodeID := some "out", sceneNodes := ["input", "out"],
           running := "false" } ["viz"] "aux"
       let st2 := onStatusModifiedEvent st1 (some "CompletedWithErrors") "out" ["viz"] "aux"
       st2.sceneNodes.contains "aux" = false
       ∧ st2.sceneNodes.contains "viz" = false
       ∧ st2.inputTransformNodeID = some "out") := by
  decide

/-- C3 (amended): `onStatusModifiedEvent` reaches its cleanup path only for
the `'Completed'` status; for every other solver status it returns with the
state unchanged — the preview visualization nodes and the auxiliary
reference volume stay in the scene, the input node's transform reference
stays `None` (it was detached when the commit started), and `Running`
stays `"true"`, so nothing is discarded and the previous transform is not
re-attached. -/
theorem C3_failure_leaves_state (st : WidgetState) (status outputNodeID auxVolumeNode : String)
    (visualizationNodes : List String) (h : status ≠ "Completed") :
    onStatusModifiedEvent (onCalculateButtonCommit st visualizationNodes auxVolumeNode)
        (some status) outputNodeID visualizationNodes auxVolumeNode
      = onCalculateButtonCommit st visualizationNodes auxVolumeNode
    ∧ (onCalculateButtonCommit st visualizationNodes auxVolumeNode).inputTransformNodeID = none
    ∧ (onCalculateButtonCommit st visualizationNodes auxVolumeNode).running = "true"
    ∧ auxVolumeNode ∈ (onCalculateButtonCommit st visualizationNodes auxVolumeNode).sceneNodes := by
  refine ⟨?_, rfl, rfl, ?_⟩
  · rw [onStatusModifiedEvent, if_neg h]
  · simp [onCalculateButtonCommit]

/-- Witness for C3's amended theorem at the `'CompletedWithErrors'` status. -/
theorem C3_failure_leaves_state_witness :
    onStatusModifiedEvent (onCalculateButtonCommit
        { inputTransformNodeID := some "out", sceneNodes := ["input", "out"],
          running := "false" } ["viz"] "aux")
        (some "CompletedWithErrors") "out" ["viz"] "aux"
      = onCalculateButtonCommit
        { inputTransformNodeID := some "out", sceneNodes := ["input", "out"],
          running := "false" } ["viz"] "aux"
    ∧ (onCalculateButtonCommit
        { inputTransformNodeID := some "out", sceneNodes := ["input", "out"],
          running := "false" } ["viz"] "aux").inputTransformNodeID = none := by
  have h := C3_failure_leaves_state
    { inputTransformNodeID := some "out", sceneNodes := ["input", "out"], running := "false" }
    "CompletedWithErrors" "out" "aux" ["viz"] (by decide)
  exact ⟨h.1, h.2.1⟩

/-! ## C10 — parameter defaults never overwrite -/

/-- The six sequential conditional assignments of `setDefaultParameters`,
written as one record expression. -/
theorem setDefaultParameters_eq (p : ParameterNode) :
    setDefaultParameters p =
      { Radius := if p.Radius = "" then "15.0" else p.Radius
        Spacing := if p.Spacing = "" then "2.0" else p.Spacing
        RBFRadius := if p.RBFRadius = "" then "30" else p.RBFRadius
        Stiffness := if p.Stiffness = "" then "0.1" else p.Stiffness
        DrawMode := if p.DrawMode = "" then "To Nearest Model" else p.DrawMode
        Running := if p.Running = "" then "false" else p.Running } := by
  rcases p with ⟨r, sp, rb, st, dm, ru⟩
  by_cases hr : r = "" <;> by_cases hsp : sp = "" <;> by_cases hrb : rb = "" <;>
    by_cases hst : st = "" <;> by_cases hdm : dm = "" <;> by_cases hru : ru = "" <;>
    simp [setDefaultParameters, setDefaultRadius, setDefaultSpacing, setDefaultRBFRadius,
      setDefaultStiffness, setDefaultDrawMode, setDefaultRunning,
      hr, hsp, hrb, hst, hdm, hru]

/-- C10: `setDefaultParameters` preserves every already-set (non-empty)
parameter among Radius, Spacing, RBFRadius, Stiffness, DrawMode and
Running, assigns the documented default exactly to the empty ones, and is
idempotent, so initializing defaults twice equals initializing once and
user settings are never overwritten. -/
theorem C10_setDefaultParameters_frame (p : ParameterNode) :
    (p.Radius ≠ "" → (setDefaultParameters p).Radius = p.Radius)
    ∧ (p.Spacing ≠ "" → (setDefaultParameters p).Spacing = p.Spacing)
    ∧ (p.RBFRadius ≠ "" → (setDefaultParameters p).RBFRadius = p.RBFRadius)
    ∧ (p.Stiffness ≠ "" → (setDefaultParameters p).Stiffness = p.Stiffness)
    ∧ (p.DrawMode ≠ "" → (setDefaultParameters p).DrawMode = p.DrawMode)
    ∧ (p.Running ≠ "" → (setDefaultParameters p).Running = p.Running)
    ∧ (p.Radius = "" → (setDefaultParameters p).Radius = "15.0")
    ∧ (p.Spacing = "" → (setDefaultParameters p).Spacing = "2.0")
    ∧ (p.RBFRadius = "" → (setDefaultParameters p).RBFRadius = "30")
    ∧ (p.Stiffness = "" → (setDefaultParameters p).Stiffness = "0.1")
    ∧ (p.DrawMode = "" → (setDefaultParameters p).DrawMode = "To Nearest Model")
    ∧ (p.Running = "" → (setDefaultParameters p).Running = "false")
    ∧ setDefaultParameters (setDefaultParameters p) = setDefaultParameters p := by
  rw [setDefaultParameters_eq p, setDefaultParameters_eq]
  refine ⟨fun h => by simp [h], fun h => by simp [h], fun h => by simp [h],
    fun h => by simp [h], fun h => by simp [h], fun h => by simp [h],
    fun h => by simp [h], fun h => by simp [h], fun h => by simp [h],
    fun h => by simp [h], fun h => by simp [h], fun h => by simp [h], ?_⟩
  by_cases hr : p.Radius = "" <;> by_cases hsp : p.Spacing = "" <;>
    by_cases hrb : p.RBFRadius = "" <;> by_cases hst : p.Stiffness = "" <;>
    by_cases hdm : p.DrawMode = "" <;> by_cases hru : p.Running = "" <;>
    simp [hr, hsp, hrb, hst, hdm, hru]

/-- Witness for C10: a parameter node whose six values are all set is left
unchanged in each field. -/
theorem C10_setDefaultParameters_frame_witness :
    (setDefaultParameters
        { Radius := "5.0", Spacing := "1.0", RBFRadius := "25", Stiffness := "0.3",
          DrawMode := "To Mask", Running := "true" }).Radius = "5.0"
    ∧ (setDefaultParameters
        { Radius := "5.0", Spacing := "1.0", RBFRadius := "25", Stiffness := "0.3",
          DrawMode := "To Mask", Running := "true" }).Running = "true" := by
  have h := C10_setDefaultParameters_frame
    { Radius := "5.0", Spacing := "1.0", RBFRadius := "25", Stiffness := "0.3",
      DrawMode := "To Mask", Running := "true" }
  exact ⟨h.1 (by decide), h.2.2.2.2.2.1 (by decide)⟩

/-! ## Path helper lemmas -/

/-- `dropWhile` skips past a block on which the predicate holds. -/
theorem dropWhile_append_all {p : Char → Bool} (l r : List Char)
    (h : ∀ c ∈ l, p c = true) :
    List.dropWhile p (l ++ r) = List.dropWhile p r := by
  induction l with
  | nil => rfl
  | cons a l ih =>
    have ha : p a = true := h a (List.mem_cons_self a l)
    rw [List.cons_append, List.dropWhile_cons, if_pos ha,
      ih (fun c hc => h c (List.mem_cons_of_mem a hc))]

/-- The character data of `s ++ "/" ++ t`. -/
theorem string_join_data (s t : String) : (s ++ "/" ++ t).data = s.data ++ '/' :: t.data := by
  have h1 : (s ++ "/" ++ t).data = (s.data ++ ['/']) ++ t.data := rfl
  rw [h1, List.append_assoc]
  rfl

/-- `os.path.dirname` undoes a join with a slash-free last component. -/
theorem dirName_join (s t : String) (h : ∀ c ∈ t.data, c ≠ '/') :
    dirName (s ++ "/" ++ t) = s := by
  rw [dirName, string_join_data, List.reverse_append, List.reverse_cons, List.append_assoc,
    List.singleton_append,
    dropWhile_append_all t.data.reverse ('/' :: s.data.reverse)
      (fun c hc => decide_eq_true (h c (List.mem_reverse.mp hc))),
    List.dropWhile_cons]
  simp

/-- A path ending in `ea_coreg_approved.mat` does not end in `json`. -/
theorem ends_mat_not_json (s : String) :
    pyEndsWith (s ++ "/" ++ "ea_coreg_approved.mat") "json" = false := by
  rw [pyEndsWith, List.isSuffixOf, string_join_data, List.reverse_append]
  rfl

/-! ## C7 — layout kind resolution -/

/-- C7: the layout kind is resolved at `LeadFileManager` construction as a
pure, deterministic function of the directory contents: it is `BIDS`
exactly when the subject root contains a `preprocessing` subdirectory and
`Legacy` otherwise, it is stored in the `useBIDS` field fixed at
construction, and two filesystems with the same directories resolve the
same manager. -/
theorem C7_layoutKind (fs fs' : FileSystem) (subjectPath : String) :
    (layoutKind (leadFileManagerInit fs subjectPath) = LayoutKind.BIDS
      ↔ fs.dirs.contains (osPathJoin subjectPath "preprocessing") = true)
    ∧ (layoutKind (leadFileManagerInit fs subjectPath) = LayoutKind.Legacy
      ↔ fs.dirs.contains (osPathJoin subjectPath "preprocessing") = false)
    ∧ (leadFileManagerInit fs subjectPath).useBIDS
        = fs.dirs.contains (osPathJoin subjectPath "preprocessing")
    ∧ (fs.dirs = fs'.dirs →
        leadFileManagerInit fs subjectPath = leadFileManagerInit fs' subjectPath) := by
  have hlk : layoutKind (leadFileManagerInit fs subjectPath)
      = if fs.dirs.contains (osPathJoin subjectPath "preprocessing") = true
        then LayoutKind.BIDS else LayoutKind.Legacy := rfl
  refine ⟨?_, ?_, rfl, fun h => by rw [leadFileManagerInit, leadFileManagerInit, h]⟩ <;>
    cases hc : fs.dirs.contains (osPathJoin subjectPath "preprocessing") <;>
      rw [hlk, hc] <;> simp

/-- Witness for C7: a root with a `preprocessing` subdirectory resolves to
BIDS, one without resolves to Legacy, and the resolution ignores files. -/
theorem C7_layoutKind_witness :
    layoutKind (leadFileManagerInit { dirs := ["/p/preprocessing"], files := [] } "/p")
      = LayoutKind.BIDS
    ∧ layoutKind (leadFileManagerInit { dirs := [], files := ["/q/x.nii"] } "/q")
      = LayoutKind.Legacy
    ∧ leadFileManagerInit { dirs := ["/p/preprocessing"], files := [] } "/p"
      = leadFileManagerInit { dirs := ["/p/preprocessing"], files := ["/p/a.nii"] } "/p" := by
  refine ⟨?_, ?_, ?_⟩
  · exact (C7_layoutKind { dirs := ["/p/preprocessing"], files := [] }
      { dirs := [], files := [] } "/p").1.mpr (by decide)
  · exact (C7_layoutKind { dirs := [], files := ["/q/x.nii"] }
      { dirs := [], files := [] } "/q").2.1.mpr (by decide)
  · exact (C7_layoutKind { dirs := ["/p/preprocessing"], files := [] }
      { dirs := ["/p/preprocessing"], files := ["/p/a.nii"] } "/p").2.2.2 rfl

/-! ## C4 — legacy transform migration never fires -/

/-- C4: the claim states that a subject whose forward warp has a sibling
`.h5` composite gets migrated — one external resampling invocation per
direction, composites replaced, `.h5` deleted.  On the concrete BIDS
subject `c4Fs` the sibling `.h5` is present and `loadSubjectTransform`
does call `updateTranform`, but the loop guard of `updateTranform` tests
`transform + '.h5'` (that is, `<...>.nii.gz.h5`) instead of
`transform.replace('.nii.gz', '.h5')` as both the caller's trigger (line
167) and the loop body (lines 182-185) do, so no invocation is made, the
`.h5` is not deleted, and the `.nii.gz` it then tries to load still does
not exist. -/
theorem C4_migration_never_runs :
    loadSubjectTransform c4Fs c4SubjectPath "/ants"
      = .ok { fs := c4Fs, calls := [], loadedPath := c4FwdWarp, loadedFileExists := false }
    ∧ c4Fs.files.contains c4FwdH5 = true
    ∧ c4Fs.files.contains (pyReplace c4FwdWarp ".nii.gz" ".h5") = true := by
  decide

/-! ## C5 — JSON approval write always fails -/

/-- C5: the claim states `setApproved` parses the JSON metadata file, sets
`approval` and rewrites the file in place.  The code opens the file with
mode `'a+'`, which positions the stream at end of file, so the `f.read()`
inside `json.load` returns the empty string and `json.load` raises
`JSONDecodeError` for *every* file content — here evaluated on a valid
JSON object (the second conjunct shows the same content parses fine when
read from the start).  The file is never rewritten and no subsequent
`loadApprovalState` can observe an approval. -/
theorem C5_saveApprovedDataJSON_error :
    saveApprovedDataJSON "\x7b\"approval\": 0, \"method\": \"ANTs\"\x7d"
      = .error .jsonDecodeError
    ∧ jsonParse "\x7b\"approval\": 0, \"method\": \"ANTs\"\x7d"
      = some [("approval", .int 0), ("method", .str "ANTs")] := by
  decide

/-! ## C6 — legacy approval file synthesized from scratch -/

/-- `saveApprovedDataLegacy` on a nonexistent file writes only the
sentinel. -/
theorem saveApprovedDataLegacy_absent (fs : FileSystem) (file : String) (h5ReadOk : Bool)
    (h : fs.files.contains file = false) :
    saveApprovedDataLegacy fs file h5ReadOk
      = { path := osPathJoin (dirName file) "ea_coreg_approved.mat"
          contents := [("glanat", .intArr [2])] } := by
  unfold saveApprovedDataLegacy
  rw [h]
  simp

/-- `saveApprovedData` dispatches to the legacy writer when the resolved
metadata path does not end in `json`. -/
theorem saveApprovedData_legacyBranch (fs : FileSystem) (subjectPath : String) (h5ReadOk : Bool)
    (hends : pyEndsWith (getNormalizationMethod (leadFileManagerInit fs subjectPath)) "json"
      = false) :
    saveApprovedData fs subjectPath h5ReadOk
      = .ok (.legacyWrite (saveApprovedDataLegacy fs
          (getNormalizationMethod (leadFileManagerInit fs subjectPath)) h5ReadOk)) := by
  unfold saveApprovedData
  dsimp only
  rw [hends]
  simp

/-- C6: for a legacy-layout subject (no `preprocessing` subdirectory) whose
approval metadata file does not exist, `saveApprovedData` resolves the
legacy path `<subject>/ea_coreg_approved.mat`, dispatches to the legacy
writer, and writes into the subject directory a file containing only the
approval sentinel — the single key `glanat` holding `np.array([2])`. -/
theorem C6_legacy_create_sentinel (fs : FileSystem) (subjectPath : String) (h5ReadOk : Bool)
    (hnp : fs.dirs.contains (osPathJoin subjectPath "preprocessing") = false)
    (hne : subjectPath ≠ "")
    (hroot : subjectPath.data.getLast? ≠ some '/')
    (hnofile : fs.files.contains (osPathJoin subjectPath "ea_coreg_approved.mat") = false) :
    getNormalizationMethod (leadFileManagerInit fs subjectPath)
      = osPathJoin subjectPath "ea_coreg_approved.mat"
    ∧ saveApprovedData fs subjectPath h5ReadOk
      = .ok (.legacyWrite
          { path := osPathJoin subjectPath "ea_coreg_approved.mat"
            contents := [("glanat", .intArr [2])] }) := by
  have hb : (leadFileManagerInit fs subjectPath).useBIDS = false := hnp
  have hmethod : getNormalizationMethod (leadFileManagerInit fs subjectPath)
      = osPathJoin subjectPath "ea_coreg_approved.mat" := by
    rw [getNormalizationMethod, hb]
    rfl
  have hjoin : osPathJoin subjectPath "ea_coreg_approved.mat"
      = subjectPath ++ "/" ++ "ea_coreg_approved.mat" := by
    rw [osPathJoin, if_neg (by decide), if_neg hne, if_neg hroot]
  have hends : pyEndsWith (osPathJoin subjectPath "ea_coreg_approved.mat") "json" = false := by
    rw [hjoin]
    exact ends_mat_not_json subjectPath
  have hdir : dirName (osPathJoin subjectPath "ea_coreg_approved.mat") = subjectPath := by
    rw [hjoin]
    exact dirName_join subjectPath "ea_coreg_approved.mat" (by decide)
  refine ⟨hmethod, ?_⟩
  rw [saveApprovedData_legacyBranch fs subjectPath h5ReadOk (by rw [hmethod]; exact hends),
    hmethod, saveApprovedDataLegacy_absent fs _ h5ReadOk hnofile, hdir]

/-- Witness for C6: a legacy subject with an empty filesystem. -/
theorem C6_legacy_create_sentinel_witness :
    saveApprovedData { dirs := [], files := [] } "/s/legacySubj" true
      = .ok (.legacyWrite
          { path := osPathJoin "/s/legacySubj" "ea_coreg_approved.mat"
            contents := [("glanat", .intArr [2])] }) :=
  (C6_legacy_create_sentinel { dirs := [], files := [] } "/s/legacySubj" true
    (by decide) (by decide) (by decide) (by decide)).2

end WarpDrive
